import Mathlib

/-!
Shallow embedding of the filemaker-mcp core (error mapper, session manager,
global searcher, relationship inferrer, metadata aggregator) together with
theorems settling the specification claims about these components.

All definitions are transcribed from the TypeScript sources:
  * `src/api/error-mapper.ts`
  * `src/api/session.ts` (SessionManager)
  * `src/analyzers/global-searcher.ts` (search engine and relationship inferrer)
  * `src/analyzers/metadata-aggregator.ts` (exportDatabaseMetadata)
Remote I/O is abstracted by explicit environments: each remote call's outcome
is a parameter of the embedded function, and stateful methods take and return
the session state explicitly.
-/

namespace FMMCP

-- ============================================================================
-- JavaScript string primitives
-- ============================================================================

/-- JavaScript `String.prototype.toLowerCase`, on the character list. -/
def jsToLower (s : String) : String :=
  String.mk (s.data.map Char.toLower)

/-- JavaScript `String.prototype.startsWith`. -/
def jsStartsWith (s pat : String) : Bool :=
  pat.data.isPrefixOf s.data

/-- JavaScript `String.prototype.endsWith`. -/
def jsEndsWith (s pat : String) : Bool :=
  pat.data.isSuffixOf s.data

/-- JavaScript `String.prototype.trim`: strip whitespace from both ends. -/
def jsTrim (s : String) : String :=
  String.mk (((s.data.dropWhile Char.isWhitespace).reverse.dropWhile
    Char.isWhitespace).reverse)

-- ============================================================================
-- error-mapper.ts
-- ============================================================================

/-- `ErrorInfo` from error-mapper.ts: internal code, message, retry hint. -/
structure ErrorInfo where
  code : Nat
  message : String
  retryable : Bool
deriving Repr, DecidableEq

-- The `ErrorCodes` constant object from error-mapper.ts.
namespace ErrorCodes

def AUTH_INVALID_CREDENTIALS : Nat := 1001
def AUTH_SERVER_UNAVAILABLE : Nat := 1002
def AUTH_DATABASE_NOT_FOUND : Nat := 1003
def AUTH_INSUFFICIENT_PRIVILEGES : Nat := 1004
def AUTH_ACCOUNT_LOCKED : Nat := 1005
def SESSION_EXPIRED : Nat := 2001
def SESSION_INVALID : Nat := 2002
def SESSION_MAX_CONNECTIONS : Nat := 2003
def API_LAYOUT_NOT_FOUND : Nat := 3001
def API_RECORD_NOT_FOUND : Nat := 3002
def API_FIELD_NOT_FOUND : Nat := 3003
def API_INVALID_QUERY : Nat := 3004
def API_INSUFFICIENT_PRIVILEGES : Nat := 3005
def API_RATE_LIMITED : Nat := 3006
def ANALYSIS_METADATA_FAILED : Nat := 4001
def ANALYSIS_PORTAL_FAILED : Nat := 4002
def ANALYSIS_TIMEOUT : Nat := 4003
def INTERNAL_UNKNOWN : Nat := 5001
def INTERNAL_CONFIG_ERROR : Nat := 5002
def INTERNAL_MEMORY_ERROR : Nat := 5003

end ErrorCodes

/--
`HTTP_ERROR_MAP` from error-mapper.ts, as the ordered list of its entries
(JavaScript iterates integer-like keys in ascending order, which coincides
with the source order of this literal).
-/
def HTTP_ERROR_ENTRIES : List (Nat × ErrorInfo) := [
  (400, ⟨ErrorCodes.API_INVALID_QUERY, "Bad request", false⟩),
  (401, ⟨ErrorCodes.SESSION_EXPIRED, "Session expired", true⟩),
  (403, ⟨ErrorCodes.AUTH_INSUFFICIENT_PRIVILEGES, "Insufficient privileges", false⟩),
  (404, ⟨ErrorCodes.API_LAYOUT_NOT_FOUND, "Resource not found", false⟩),
  (409, ⟨ErrorCodes.API_INVALID_QUERY, "Conflict", false⟩),
  (413, ⟨ErrorCodes.API_INVALID_QUERY, "Payload too large", false⟩),
  (429, ⟨ErrorCodes.API_RATE_LIMITED, "Rate limited - too many requests", true⟩),
  (500, ⟨ErrorCodes.INTERNAL_UNKNOWN, "FileMaker server error", true⟩),
  (502, ⟨ErrorCodes.AUTH_SERVER_UNAVAILABLE, "Bad gateway", true⟩),
  (503, ⟨ErrorCodes.AUTH_SERVER_UNAVAILABLE, "FileMaker server unavailable", true⟩),
  (504, ⟨ErrorCodes.AUTH_SERVER_UNAVAILABLE, "Gateway timeout", true⟩)]

/-- Key lookup in `HTTP_ERROR_MAP` (`HTTP_ERROR_MAP[httpStatus]`). -/
def HTTP_ERROR_MAP (httpStatus : Nat) : Option ErrorInfo :=
  HTTP_ERROR_ENTRIES.lookup httpStatus

/-- `FM_ERROR_MAP` from error-mapper.ts, as the ordered list of its entries. -/
def FM_ERROR_ENTRIES : List (Nat × ErrorInfo) := [
  (100, ⟨ErrorCodes.API_RECORD_NOT_FOUND, "File is missing", false⟩),
  (101, ⟨ErrorCodes.API_RECORD_NOT_FOUND, "Record is missing", false⟩),
  (102, ⟨ErrorCodes.API_FIELD_NOT_FOUND, "Field is missing", false⟩),
  (105, ⟨ErrorCodes.API_LAYOUT_NOT_FOUND, "Layout is missing", false⟩),
  (212, ⟨ErrorCodes.AUTH_INVALID_CREDENTIALS, "Invalid username or password", false⟩),
  (214, ⟨ErrorCodes.AUTH_ACCOUNT_LOCKED, "Account is locked out", false⟩),
  (400, ⟨ErrorCodes.API_INVALID_QUERY, "Find criteria are empty", false⟩),
  (401, ⟨ErrorCodes.API_RECORD_NOT_FOUND, "No records match the request", false⟩),
  (802, ⟨ErrorCodes.AUTH_SERVER_UNAVAILABLE, "Unable to open file", true⟩),
  (952, ⟨ErrorCodes.AUTH_INSUFFICIENT_PRIVILEGES, "Insufficient access privileges", false⟩)]

/-- Key lookup in `FM_ERROR_MAP` (`FM_ERROR_MAP[fmErrorCode]`). -/
def FM_ERROR_MAP (fmErrorCode : Nat) : Option ErrorInfo :=
  FM_ERROR_ENTRIES.lookup fmErrorCode

/--
`resolveError` from error-mapper.ts: a present FileMaker error code with a
table entry wins, then the HTTP status is consulted, then the unknown
descriptor is returned.
-/
def resolveError (httpStatus : Nat) (fmErrorCode : Option Nat) : ErrorInfo :=
  match fmErrorCode.bind FM_ERROR_MAP with
  | some info => info
  | none =>
    match HTTP_ERROR_MAP httpStatus with
    | some info => info
    | none => ⟨ErrorCodes.INTERNAL_UNKNOWN, "Unknown error", false⟩

/--
`isRetryableError` from error-mapper.ts: scans the values of
`HTTP_ERROR_MAP` for an entry with the given internal code, then the values
of `FM_ERROR_MAP`; codes found in neither are not retryable.
-/
def isRetryableError (errorCode : Nat) : Bool :=
  match (HTTP_ERROR_ENTRIES.map Prod.snd).find? (fun info => info.code == errorCode) with
  | some info => info.retryable
  | none =>
    match (FM_ERROR_ENTRIES.map Prod.snd).find? (fun info => info.code == errorCode) with
    | some info => info.retryable
    | none => false

/-- The `error` payload of an `ErrorResponse` (types/tools.ts). -/
structure ErrorBody where
  code : Nat
  message : String
  details : Option String := none
  fmErrorCode : Option Nat := none
  retryable : Bool
deriving Repr, DecidableEq

/-- `ErrorResponse` (types/tools.ts): a failure result (`success: false`). -/
structure ErrorResponse where
  error : ErrorBody
deriving Repr, DecidableEq

/-- `createErrorResponse` from error-mapper.ts. -/
def createErrorResponse (httpStatus : Nat) (fmErrorCode : Option Nat)
    (context : Option String) : ErrorResponse :=
  let errorInfo := resolveError httpStatus fmErrorCode
  ⟨⟨errorInfo.code, errorInfo.message, context, fmErrorCode, errorInfo.retryable⟩⟩

-- ============================================================================
-- session.ts (SessionManager)
-- ============================================================================

/-- `SessionInfo` from session.ts. -/
structure SessionInfo where
  database : String
  server : String
  createdAt : Nat
deriving Repr, DecidableEq

/--
`SessionState` from session.ts (the token and session info; the config is
kept abstract since no claim depends on it).  The manager's mutable
`state: SessionState | null` field is embedded as `Option SessionState`,
with `none` standing for the Absent state.  The `httpClient` field is
non-null exactly when `state` is (login sets both, `clearSession` nulls
both), so it is not modelled separately.
-/
structure SessionState where
  token : String
  info : SessionInfo
deriving Repr, DecidableEq

/-- `SessionManager.hasActiveSession`: a state exists and its token is nonempty. -/
def hasActiveSession (state : Option SessionState) : Bool :=
  match state with
  | none => false
  | some s => s.token != ""

/--
`SessionManager.withSession`: with no active session it returns the
non-retryable `SESSION_INVALID` "No active session" error; otherwise it
returns the request function's result unchanged.  The request function's
result is abstracted as the value `r` it would produce; the second
component of the output is the session state after the call (the method
never writes `this.state`).
-/
def withSession {ρ : Type} (state : Option SessionState) (r : ρ) :
    (ErrorResponse ⊕ ρ) × Option SessionState :=
  if hasActiveSession state then
    (Sum.inr r, state)
  else
    (Sum.inl ⟨⟨ErrorCodes.SESSION_INVALID, "No active session. Please login first.",
      some "withSession called without active session", none, false⟩⟩, state)

/-- Result type of `SessionManager.validateSession`. -/
structure ValidateSessionResult where
  valid : Bool
  message : String
  sessionAge : Option Nat := none
deriving Repr, DecidableEq

/--
`SessionManager.validateSession`: with no active session it reports invalid
without a remote call; otherwise the `GET /layouts` probe's outcome
(`probe`, abstracted: `Sum.inl` an error response, `Sum.inr` success) is
inspected — a `SESSION_EXPIRED` error clears the session and reports
invalid, any other error reports invalid but keeps the session, and success
reports valid with the session age (`age`, computed in the source from the
current clock).  Returns the result paired with the state after the call.
-/
def validateSession (state : Option SessionState) (probe : ErrorResponse ⊕ Unit)
    (age : Option Nat) : ValidateSessionResult × Option SessionState :=
  if hasActiveSession state then
    match probe with
    | Sum.inl e =>
      if e.error.code = ErrorCodes.SESSION_EXPIRED then
        (⟨false, "Session expired or invalid", none⟩, none)
      else
        (⟨false, e.error.message, none⟩, state)
    | Sum.inr _ => (⟨true, "Session is valid", age⟩, state)
  else
    (⟨false, "No active session", none⟩, state)

/--
Outcome of one `SessionManager.logout` call: the returned value (either the
success record with its message, or an error response), the session state
after the call, and whether the remote `DELETE /sessions/:token` call was
issued.
-/
structure LogoutOutcome where
  result : Except ErrorResponse String
  stateAfter : Option SessionState
  remoteCallIssued : Bool
deriving Repr

/--
`SessionManager.logout`: with no active session it returns the
non-retryable `SESSION_INVALID` "No active session" error without a remote
call; otherwise it issues the delete-session call (whose outcome is
abstracted as `resp`), clears the session state unconditionally, treats a
`SESSION_EXPIRED` error response as a successful logout, and otherwise
returns the error or the success message.
-/
def logout (state : Option SessionState) (resp : ErrorResponse ⊕ Unit) : LogoutOutcome :=
  if hasActiveSession state then
    let result : Except ErrorResponse String :=
      match resp with
      | Sum.inl e =>
        if e.error.code = ErrorCodes.SESSION_EXPIRED then
          Except.ok "Session already expired"
        else
          Except.error e
      | Sum.inr _ => Except.ok "Logged out successfully"
    ⟨result, none, true⟩
  else
    ⟨Except.error ⟨⟨ErrorCodes.SESSION_INVALID, "No active session", none, none, false⟩⟩,
      state, false⟩

-- ============================================================================
-- global-searcher.ts: search engine
-- ============================================================================

/--
`FMFieldMetaData` (types/filemaker.ts), restricted to the attributes the
embedded code reads: the field name, its kind (`type`: "normal",
"calculation", "summary") and its declared result type (`result`: "text",
"number", "date", "time", "timestamp", "container").
-/
structure FMFieldMetaData where
  name : String
  type : String
  result : String
deriving Repr, DecidableEq

/-- `DEFAULT_MAX_FIELDS_PER_LAYOUT` from global-searcher.ts. -/
def DEFAULT_MAX_FIELDS_PER_LAYOUT : Nat := 50

/-- `DEFAULT_MAX_RECORDS_PER_LAYOUT` from global-searcher.ts. -/
def DEFAULT_MAX_RECORDS_PER_LAYOUT : Nat := 100

/-- `ABSOLUTE_MAX_RECORDS` from global-searcher.ts. -/
def ABSOLUTE_MAX_RECORDS : Nat := 1000

/-- `SEARCHABLE_RESULT_TYPES` from global-searcher.ts. -/
def SEARCHABLE_RESULT_TYPES : List String :=
  ["text", "number", "date", "time", "timestamp"]

/-- `isSearchableField` from global-searcher.ts. -/
def isSearchableField (field : FMFieldMetaData) (includeCalculations : Bool) : Bool :=
  if ¬ SEARCHABLE_RESULT_TYPES.contains field.result then
    false
  else if field.type == "calculation" && !includeCalculations then
    false
  else if field.type == "summary" then
    false
  else
    true

/-- The `searchMode` union type `'contains' | 'exact' | 'startsWith'`. -/
inductive SearchMode where
  | contains
  | exact
  | startsWith
deriving Repr, DecidableEq

/--
`buildSearchValue` from global-searcher.ts: wildcard / equality decoration
is applied only when the field's result type is `"text"`; every other
result type gets the search text unchanged.  For text fields, `exact`
prepends `==`, `startsWith` appends `*`, and the default (`contains`)
wraps the text in `*`.
-/
def buildSearchValue (searchText : String) (searchMode : SearchMode)
    (fieldResultType : String) : String :=
  if fieldResultType != "text" then
    searchText
  else
    match searchMode with
    | SearchMode.exact => "==" ++ searchText
    | SearchMode.startsWith => searchText ++ "*"
    | SearchMode.contains => "*" ++ searchText ++ "*"

/-- The resolved options record built at the top of `globalSearchData`. -/
structure SearchOptions where
  maxFieldsPerLayout : Nat
  maxRecordsPerLayout : Nat
  includeCalculations : Bool
  searchMode : SearchMode
deriving Repr, DecidableEq

/-- One record of a `_find` response; field values modelled as strings. -/
structure FMRecord where
  recordId : String
  fieldData : List (String × String)
deriving Repr, DecidableEq

/-- The `_find` request body built by `searchLayout` (query and limit). -/
structure FindRequest where
  query : List (String × String)
  limit : Nat
deriving Repr, DecidableEq

/-- `LayoutSearchResult` (types/tools.ts). -/
structure LayoutSearchResult where
  layout : String
  recordCount : Nat
  records : List FMRecord
  searchedFields : List String
  matchedFields : Option (List String) := none
deriving Repr, DecidableEq

/--
Substring test on character lists: does `needle` occur contiguously inside
`hay`?  Embeds JavaScript's `String.prototype.includes`, used by
`searchLayout` for the matched-fields hint.
-/
def strIncludes (needle : List Char) : List Char → Bool
  | [] => needle.isEmpty
  | c :: rest => needle.isPrefixOf (c :: rest) || strIncludes needle rest

/--
The remote behaviour one `searchLayout` call can observe, abstracted: the
outcome of the layout-metadata `GET` (its `fieldMetaData` on success) and
the outcome of the `_find` `POST` as a function of the request body.  The
source's "response without a `data` member" branch is subsumed by the
error case (both produce a skip).
-/
structure LayoutEnv where
  metaResult : Except ErrorResponse (List FMFieldMetaData)
  findResult : FindRequest → Except ErrorResponse (List FMRecord)

/--
`searchLayout` from global-searcher.ts, with remote calls abstracted by
`env`.  Returns `Except.error skipReason` for the source's
`\x7bresult: null, skipped: true, skipReason\x7d` returns and
`Except.ok result` for its `\x7bresult, skipped: false\x7d` returns.
A `_find` failure whose FileMaker error code is 401 ("no records match")
is returned as a success with zero records.
-/
def searchLayout (layoutName : String) (searchText : String)
    (options : SearchOptions) (env : LayoutEnv) :
    Except String LayoutSearchResult :=
  match env.metaResult with
  | Except.error e => Except.error ("メタデータ取得エラー: " ++ e.error.message)
  | Except.ok fieldMetaData =>
    let searchableFields :=
      (fieldMetaData.filter (fun f => isSearchableField f options.includeCalculations)).take
        options.maxFieldsPerLayout
    if searchableFields.isEmpty then
      Except.error "検索可能なフィールドが存在しない"
    else
      let query := searchableFields.map
        (fun field => (field.name, buildSearchValue searchText options.searchMode field.result))
      match env.findResult ⟨query, options.maxRecordsPerLayout⟩ with
      | Except.error e =>
        if e.error.fmErrorCode = some 401 then
          Except.ok ⟨layoutName, 0, [], searchableFields.map (fun f => f.name), none⟩
        else
          Except.error ("検索エラー: " ++ e.error.message)
      | Except.ok records =>
        let matchedFields :=
          match records with
          | [] => []
          | firstRecord :: _ =>
            (searchableFields.filter (fun field =>
              match firstRecord.fieldData.lookup field.name with
              | some v => strIncludes (jsToLower searchText).data (jsToLower v).data
              | none => false)).map (fun f => f.name)
        Except.ok ⟨layoutName, records.length, records,
          searchableFields.map (fun f => f.name),
          if matchedFields.isEmpty then none else some matchedFields⟩

/-- `GlobalSearchDataInput.options` (types/tools.ts); all members optional. -/
structure GlobalSearchDataOptions where
  maxFieldsPerLayout : Option Nat := none
  maxRecordsPerLayout : Option Nat := none
  includeCalculations : Option Bool := none
  searchMode : Option SearchMode := none
deriving Repr, DecidableEq

/-- `GlobalSearchDataInput` (types/tools.ts). -/
structure GlobalSearchDataInput where
  searchText : String
  layouts : List String
  options : Option GlobalSearchDataOptions := none
deriving Repr, DecidableEq

/-- The `summary` member of `GlobalSearchDataOutput`. -/
structure GlobalSearchSummary where
  totalLayouts : Nat
  totalRecordsFound : Nat
  searchedLayouts : List String
  skippedLayouts : List String
deriving Repr, DecidableEq

/-- `GlobalSearchDataOutput` (types/tools.ts), without the fixed text blocks. -/
structure GlobalSearchDataOutput where
  searchText : String
  results : List LayoutSearchResult
  summary : GlobalSearchSummary
deriving Repr, DecidableEq

/--
The option-defaulting block at the top of `globalSearchData`: the
caller-requested record cap is clamped to `ABSOLUTE_MAX_RECORDS`, and the
defaults are 50 fields, 100 records, no calculation fields, mode
`contains`.
-/
def resolvedSearchOptions (input : GlobalSearchDataInput) : SearchOptions :=
  { maxFieldsPerLayout :=
      (input.options.bind (fun o => o.maxFieldsPerLayout)).getD
        DEFAULT_MAX_FIELDS_PER_LAYOUT,
    maxRecordsPerLayout :=
      min ((input.options.bind (fun o => o.maxRecordsPerLayout)).getD
        DEFAULT_MAX_RECORDS_PER_LAYOUT) ABSOLUTE_MAX_RECORDS,
    includeCalculations :=
      (input.options.bind (fun o => o.includeCalculations)).getD false,
    searchMode :=
      (input.options.bind (fun o => o.searchMode)).getD SearchMode.contains }

/-- The per-layout loop body of `globalSearchData`, folded over the layouts. -/
def globalSearchStep (searchText : String) (options : SearchOptions)
    (envs : String → LayoutEnv)
    (acc : List LayoutSearchResult × List String × Nat) (layoutName : String) :
    List LayoutSearchResult × List String × Nat :=
  match searchLayout layoutName searchText options (envs layoutName) with
  | Except.error _ => (acc.1, acc.2.1 ++ [layoutName], acc.2.2)
  | Except.ok result =>
    (acc.1 ++ [result], acc.2.1, acc.2.2 + result.recordCount)

/--
`globalSearchData` from global-searcher.ts, with the per-layout remote
behaviour abstracted by `envs` (keyed by layout name).  Empty (or
whitespace-only) search text and an empty layout list are rejected up
front; otherwise every requested layout is processed in order, skipped
layouts are collected by name, and found records are totalled.
-/
def globalSearchData (input : GlobalSearchDataInput) (envs : String → LayoutEnv) :
    Except ErrorResponse GlobalSearchDataOutput :=
  if jsTrim input.searchText = "" then
    Except.error (createErrorResponse 400 none (some "検索テキストが空です"))
  else if input.layouts.isEmpty then
    Except.error (createErrorResponse 400 none (some "検索対象レイアウトが指定されていません"))
  else
    let options := resolvedSearchOptions input
    let folded := input.layouts.foldl (globalSearchStep input.searchText options envs)
      ([], [], 0)
    Except.ok
      { searchText := input.searchText,
        results := folded.1,
        summary :=
          { totalLayouts := input.layouts.length,
            totalRecordsFound := folded.2.2,
            searchedLayouts := folded.1.map (fun r => r.layout),
            skippedLayouts := folded.2.1 } }

-- ============================================================================
-- global-searcher.ts: relationship inferrer
-- ============================================================================

/-- `ConfidenceLevel` (types/tools.ts). -/
inductive ConfidenceLevel where
  | high
  | medium
  | low
deriving Repr, DecidableEq

/-- `InferredForeignKey` (types/tools.ts). -/
structure InferredForeignKey where
  fieldName : String
  inferredReferencedTable : String
  confidence : ConfidenceLevel
  inferenceReason : String
deriving Repr, DecidableEq

/-- `DetailedInferredRelationship` (types/tools.ts). -/
structure DetailedInferredRelationship where
  name : String
  sourceTable : String
  targetTable : String
  sourceField : Option String
  targetField : Option String
  type : String
  confidence : ConfidenceLevel
  inferenceMethod : String
deriving Repr, DecidableEq

/--
First entry of `FOREIGN_KEY_PATTERNS`: the regex `^(.+)_[Ii][Dd]$` with
`extractTable` returning group 1.  The name must end in `_id` (both letters
case-insensitive) with a nonempty remainder, which is the extracted table.
-/
def fkSuffixUnderscoreId (name : String) : Option String :=
  match name.data.reverse with
  | d :: i :: '_' :: rest =>
    if (d == 'd' || d == 'D') && (i == 'i' || i == 'I') && !rest.isEmpty then
      some (String.mk rest.reverse)
    else
      none
  | _ => none

/--
Second entry of `FOREIGN_KEY_PATTERNS`: the regex `^(.+?)([A-Z]?[Ii][Dd])$`
with `extractTable` returning group 1.  The lazy first group makes the
engine prefer the longest second group, so when the character before the
trailing `id` is an ASCII capital and a nonempty remainder is left, that
capital belongs to group 2; otherwise group 2 is just the trailing `id`.
-/
def fkCamelId (name : String) : Option String :=
  match name.data.reverse with
  | d :: i :: rest =>
    if (d == 'd' || d == 'D') && (i == 'i' || i == 'I') then
      match rest with
      | c :: rest2 =>
        if ('A' ≤ c && c ≤ 'Z') && !rest2.isEmpty then
          some (String.mk rest2.reverse)
        else
          some (String.mk rest.reverse)
      | [] => none
    else
      none
  | _ => none

/--
Third entry of `FOREIGN_KEY_PATTERNS`: the regex `^[Ff][Kk]_(.+)$` with
`extractTable` returning group 1.
-/
def fkPfxFk (name : String) : Option String :=
  match name.data with
  | f :: k :: '_' :: rest =>
    if (f == 'f' || f == 'F') && (k == 'k' || k == 'K') && !rest.isEmpty then
      some (String.mk rest)
    else
      none
  | _ => none

/--
Fourth entry of `FOREIGN_KEY_PATTERNS`: the regex `^[Ii][Dd]_(.+)$` with
`extractTable` returning group 1.
-/
def fkPfxId (name : String) : Option String :=
  match name.data with
  | i :: d :: '_' :: rest =>
    if (i == 'i' || i == 'I') && (d == 'd' || d == 'D') && !rest.isEmpty then
      some (String.mk rest)
    else
      none
  | _ => none

/-- `FOREIGN_KEY_PATTERNS` from global-searcher.ts, in source order. -/
def FOREIGN_KEY_PATTERNS : List (String → Option String) :=
  [fkSuffixUnderscoreId, fkCamelId, fkPfxFk, fkPfxId]

/--
`inferForeignKeyFromField` from global-searcher.ts: only fields whose
result type is `"number"` or `"text"` are considered; the patterns are
tried in order and the first match wins.  (The source additionally guards
against an empty extracted table name before returning; every `.+` group
is nonempty, so the guard never fires and first-match-wins is exact.)
Confidence is `high` exactly when the field name case-insensitively ends
in `_id` and the result type is `"number"`, else `medium`.
-/
def inferForeignKeyFromField (field : FMFieldMetaData) : Option InferredForeignKey :=
  if field.result != "number" && field.result != "text" then
    none
  else
    match FOREIGN_KEY_PATTERNS.findSome? (fun p => p field.name) with
    | none => none
    | some inferredTable =>
      let confidence :=
        if jsEndsWith (jsToLower field.name) "_id" && field.result == "number" then
          ConfidenceLevel.high
        else
          ConfidenceLevel.medium
      some ⟨field.name, inferredTable, confidence,
        "フィールド名「" ++ field.name ++ "」が外部キーパターンに一致"⟩

/-- The prefix list stripped by `inferTableFromPortalName`. -/
def PORTAL_NAME_PFX : List String :=
  ["portal_", "Portal_", "PORTAL_", "rel_", "Rel_", "REL_"]

/-- The suffix list stripped by `inferTableFromPortalName`. -/
def PORTAL_NAME_SFX : List String :=
  ["_portal", "_Portal", "_PORTAL", "_rel", "_Rel", "_REL"]

/-- The prefix-stripping loop of `inferTableFromPortalName` (first hit wins). -/
def stripFirstPfx (s : String) : List String → String
  | [] => s
  | p :: ps => if jsStartsWith s p then s.drop p.length else stripFirstPfx s ps

/-- The suffix-stripping loop of `inferTableFromPortalName` (first hit wins). -/
def stripFirstSfx (s : String) : List String → String
  | [] => s
  | p :: ps => if jsEndsWith s p then s.dropRight p.length else stripFirstSfx s ps

/--
`inferTableFromPortalName` from global-searcher.ts: strip the first
matching prefix, then the first matching suffix; if everything was
stripped away, fall back to the portal name itself.
-/
def inferTableFromPortalName (portalName : String) : String :=
  let t1 := stripFirstPfx portalName PORTAL_NAME_PFX
  let t2 := stripFirstSfx t1 PORTAL_NAME_SFX
  if t2 == "" then portalName else t2

/--
`inferRelationshipFromPortal` from global-searcher.ts.  The target field is
the first foreign-key-looking field of the portal, if any; `sourceField` is
declared but never assigned in the source, hence always `none`; cardinality
is always `"one-to-many"`; confidence is `high` exactly when stripping
changed nothing (case-insensitively).
-/
def inferRelationshipFromPortal (sourceLayout : String) (portalName : String)
    (portalFields : List FMFieldMetaData) : DetailedInferredRelationship :=
  let targetTable := inferTableFromPortalName portalName
  let targetField := (portalFields.findSome? inferForeignKeyFromField).map
    (fun fk => fk.fieldName)
  let confidence :=
    if jsToLower targetTable == jsToLower portalName then
      ConfidenceLevel.high
    else
      ConfidenceLevel.medium
  ⟨sourceLayout ++ " -> " ++ targetTable, sourceLayout, targetTable, none, targetField,
    "one-to-many", confidence, "ポータル名パターンマッチング"⟩

/--
The `data` member of `FMLayoutMetadataResponse` (types/filemaker.ts),
restricted to what `inferRelationships` reads: the direct fields and the
named portals with their fields (`Object.entries` iterates string keys in
insertion order, embedded as a list).
-/
structure LayoutMetadataShape where
  fieldMetaData : List FMFieldMetaData
  portalMetaData : List (String × List FMFieldMetaData)
deriving Repr, DecidableEq

/--
The body of the per-field loop (step 2.2) of `inferRelationships`: a
detected foreign key is always appended to the foreign-key list, and
additionally yields a relationship unless some already-collected
relationship targets the same table case-insensitively.
-/
def inferRelStep (layout : String)
    (acc : List DetailedInferredRelationship × List InferredForeignKey)
    (field : FMFieldMetaData) :
    List DetailedInferredRelationship × List InferredForeignKey :=
  match inferForeignKeyFromField field with
  | none => acc
  | some fkInference =>
    let fks := acc.2 ++ [fkInference]
    if acc.1.any (fun r =>
        jsToLower r.targetTable == jsToLower fkInference.inferredReferencedTable) then
      (acc.1, fks)
    else
      (acc.1 ++ [⟨layout ++ " -> " ++ fkInference.inferredReferencedTable, layout,
        fkInference.inferredReferencedTable, some fkInference.fieldName, none, "unknown",
        fkInference.confidence, "フィールド名パターンマッチング（外部キー推測）"⟩], fks)

/--
The inference core (step 2) of `inferRelationships` from
global-searcher.ts, applied to already-fetched layout metadata: first one
relationship per portal (step 2.1), then the per-field foreign-key pass
(step 2.2) with its dedup check.  Returns the
`(inferredRelationships, inferredForeignKeys)` pair.
-/
def inferRelationshipsCore (layout : String) (metadata : LayoutMetadataShape) :
    List DetailedInferredRelationship × List InferredForeignKey :=
  let portalRels := metadata.portalMetaData.map
    (fun p => inferRelationshipFromPortal layout p.1 p.2)
  metadata.fieldMetaData.foldl (inferRelStep layout) (portalRels, [])

-- ============================================================================
-- metadata-aggregator.ts (exportDatabaseMetadata)
-- ============================================================================

/-- One entry of the `GET /layouts` listing: a name and a folder flag. -/
structure FMLayoutListEntry where
  name : String
  isFolder : Bool
deriving Repr, DecidableEq

/-- One entry of the `GET /scripts` listing: a name and a folder flag. -/
structure FMScriptEntry where
  name : String
  isFolder : Bool
deriving Repr, DecidableEq

/-- `ScriptMetadata` (types/tools.ts). -/
structure ScriptMetadata where
  name : String
  isAvailable : Bool
deriving Repr, DecidableEq

/-- `PortalMetadata` (types/tools.ts). -/
structure PortalMetadata where
  name : String
  relatedTableName : String
  fields : List FMFieldMetaData
deriving Repr, DecidableEq

/-- `LayoutMetadata` (types/tools.ts). -/
structure LayoutMetadata where
  name : String
  fields : List FMFieldMetaData
  portals : List PortalMetadata
deriving Repr, DecidableEq

/-- `InferredRelationship` (types/tools.ts), the aggregator's flat flavour. -/
structure AggInferredRelationship where
  sourceLayout : String
  portalName : String
  inferredTargetTable : String
  confidence : ConfidenceLevel
  inferenceMethod : String
deriving Repr, DecidableEq

/-- `DATA_API_LIMITATIONS` from metadata-aggregator.ts. -/
def DATA_API_LIMITATIONS : List String := [
  "リレーションシップ定義は取得不可（Data API制約）",
  "計算式の内容は取得不可（Data API制約）",
  "スクリプトの内容は取得不可（名前のみ）",
  "テーブル定義は取得不可（レイアウト経由の推測のみ）",
  "セキュリティ権限情報は取得不可",
  "カスタムファンクションは取得不可"]

/--
`inferRelatedTableName` from metadata-aggregator.ts (distinct from the
searcher's `inferTableFromPortalName`): case-insensitively strip a
`portal_` prefix, then a `_portal` suffix, falling back to the portal name
when everything is stripped away.
-/
def aggInferRelatedTableName (portalName : String) : String :=
  let t1 :=
    if jsStartsWith (jsToLower portalName) "portal_" then portalName.drop 7 else portalName
  let t2 := if jsEndsWith (jsToLower t1) "_portal" then t1.dropRight 7 else t1
  if t2 == "" then portalName else t2

/-- `inferRelationshipFromPortal` from metadata-aggregator.ts. -/
def aggInferRelationshipFromPortal (layoutName : String) (portalName : String) :
    AggInferredRelationship :=
  let inferredTable := aggInferRelatedTableName portalName
  let confidence :=
    if jsToLower inferredTable == jsToLower portalName then
      ConfidenceLevel.high
    else
      ConfidenceLevel.medium
  ⟨layoutName, portalName, inferredTable, confidence, "portal_name"⟩

/--
The `data` member of one layout's metadata response as read by
`exportDatabaseMetadata`: fields, named portals, and named value lists
(absent optional members embedded as empty lists).
-/
structure AggLayoutMeta where
  fieldMetaData : List FMFieldMetaData
  portalMetaData : List (String × List FMFieldMetaData)
  valueLists : List (String × List String)
deriving Repr, DecidableEq

/--
The remote behaviour `exportDatabaseMetadata` can observe, abstracted: the
layout listing, each layout's metadata fetch (keyed by layout name), and
the script listing.
-/
structure AggregatorEnv where
  layoutsResult : Except ErrorResponse (List FMLayoutListEntry)
  layoutMeta : String → Except ErrorResponse AggLayoutMeta
  scriptsResult : Except ErrorResponse (List FMScriptEntry)

/-- The option object of `ExportDatabaseMetadataInput`; all members optional. -/
structure ExportOptionsInput where
  includeLayouts : Option Bool := none
  includeScripts : Option Bool := none
  includeValueLists : Option Bool := none
  includePortalAnalysis : Option Bool := none
deriving Repr, DecidableEq

/-- `ExportDatabaseMetadataInput` (types/tools.ts), restricted to options. -/
structure ExportDatabaseMetadataInput where
  options : Option ExportOptionsInput := none
deriving Repr, DecidableEq

/-- The resolved options record built at the top of `exportDatabaseMetadata`. -/
structure ExportOptions where
  includeLayouts : Bool
  includeScripts : Bool
  includeValueLists : Bool
  includePortalAnalysis : Bool
deriving Repr, DecidableEq

/-- Option defaulting (`?? true`) at the top of `exportDatabaseMetadata`. -/
def resolveExportOptions (input : ExportDatabaseMetadataInput) : ExportOptions :=
  ⟨(input.options.bind (fun o => o.includeLayouts)).getD true,
    (input.options.bind (fun o => o.includeScripts)).getD true,
    (input.options.bind (fun o => o.includeValueLists)).getD true,
    (input.options.bind (fun o => o.includePortalAnalysis)).getD true⟩

/--
The aggregation result of `exportDatabaseMetadata` (the `data` member plus
the fixed limitations; database/server identity, `format` and the
`generatedAt` clock value are omitted as no claim depends on them; the
source additionally drops the `valueLists` / `inferredRelationships`
members from the JSON when they are empty).
-/
structure ExportOutput where
  layouts : List LayoutMetadata
  scripts : List ScriptMetadata
  valueLists : List (String × List String)
  inferredRelationships : List AggInferredRelationship
  limitations : List String
deriving Repr, DecidableEq

/--
The `layouts.push(...)` record built for one successfully fetched layout in
`exportDatabaseMetadata`: the converted fields plus one `PortalMetadata`
per portal.
-/
def buildLayoutEntry (layoutName : String) (metadata : AggLayoutMeta) : LayoutMetadata :=
  ⟨layoutName, metadata.fieldMetaData,
    metadata.portalMetaData.map
      (fun p => PortalMetadata.mk p.1 (aggInferRelatedTableName p.1) p.2)⟩

/--
The per-layout loop body (step 2) of `exportDatabaseMetadata`: a failed (or
shape-wise unexpected) metadata fetch logs and `continue`s, leaving the
accumulator unchanged; a successful one appends the layout entry, the
per-portal inferred relationships (when portal analysis is on), and the
first-occurrence-wins value-list entries (when value lists are on).
-/
def exportLayoutStep (opts : ExportOptions) (env : AggregatorEnv)
    (acc : List LayoutMetadata × List AggInferredRelationship ×
      List (String × List String))
    (layoutName : String) :
    List LayoutMetadata × List AggInferredRelationship ×
      List (String × List String) :=
  match env.layoutMeta layoutName with
  | Except.error _ => acc
  | Except.ok metadata =>
    let newRels :=
      if opts.includePortalAnalysis then
        metadata.portalMetaData.map (fun p => aggInferRelationshipFromPortal layoutName p.1)
      else
        []
    let newValueListMap :=
      if opts.includeValueLists then
        metadata.valueLists.foldl
          (fun m vl => if (m.lookup vl.1).isSome then m else m ++ [vl]) acc.2.2
      else
        acc.2.2
    (acc.1 ++ [buildLayoutEntry layoutName metadata],
      acc.2.1 ++ newRels, newValueListMap)

/--
`exportDatabaseMetadata` from metadata-aggregator.ts, with remote calls
abstracted by `env`.  A failed layout listing (when layouts are requested)
or a failed script listing (when scripts are requested) fails the whole
call with that error; individual layout-metadata failures are skipped.
-/
def exportDatabaseMetadata (input : ExportDatabaseMetadataInput)
    (env : AggregatorEnv) : Except ErrorResponse ExportOutput :=
  let opts := resolveExportOptions input
  let layoutsPart : Except ErrorResponse
      (List LayoutMetadata × List AggInferredRelationship ×
        List (String × List String)) :=
    if opts.includeLayouts then
      match env.layoutsResult with
      | Except.error e => Except.error e
      | Except.ok listing =>
        let layoutNames := (listing.filter (fun l => !l.isFolder)).map
          (fun l => l.name)
        Except.ok (layoutNames.foldl (exportLayoutStep opts env) ([], [], []))
    else
      Except.ok ([], [], [])
  match layoutsPart with
  | Except.error e => Except.error e
  | Except.ok acc =>
    let scriptsPart : Except ErrorResponse (List ScriptMetadata) :=
      if opts.includeScripts then
        match env.scriptsResult with
        | Except.error e => Except.error e
        | Except.ok listing =>
          Except.ok ((listing.filter (fun s => !s.isFolder)).map
            (fun s => ScriptMetadata.mk s.name true))
      else
        Except.ok []
    match scriptsPart with
    | Except.error e => Except.error e
    | Except.ok scripts =>
      Except.ok ⟨acc.1, scripts, acc.2.2, acc.2.1, DATA_API_LIMITATIONS⟩

-- ============================================================================
-- Concrete instances used by the theorems below
-- ============================================================================

/-- A concrete Active session state. -/
def wActiveState : Option SessionState := some ⟨"token-1", ⟨"db", "srv", 0⟩⟩

/-- A concrete error response whose resolved category is expired session. -/
def wExpiredResponse : ErrorResponse :=
  ⟨⟨ErrorCodes.SESSION_EXPIRED, "Session expired", none, none, true⟩⟩

/-- A layout with an `Orders` portal and an `Order_ID` number field. -/
def c3Metadata : LayoutMetadataShape :=
  ⟨[⟨"Order_ID", "normal", "number"⟩], [("Orders", [])]⟩

/-- The field-derived relationship the inferrer produces on `c3Metadata`. -/
def c3FieldRel : DetailedInferredRelationship :=
  ⟨"Invoice -> Order", "Invoice", "Order", some "Order_ID", none, "unknown",
    ConfidenceLevel.high, "フィールド名パターンマッチング（外部キー推測）"⟩

/-- A concrete metadata-fetch failure. -/
def wMetaFailure : ErrorResponse :=
  ⟨⟨ErrorCodes.ANALYSIS_METADATA_FAILED, "metadata fetch failed", none, none, false⟩⟩

/-- A layout whose metadata and find calls succeed with one text field. -/
def wSearchEnvGood : LayoutEnv :=
  ⟨Except.ok [⟨"Name", "normal", "text"⟩],
    fun _ => Except.ok [⟨"1", [("Name", "Tokyo Store")]⟩]⟩

/-- A layout whose metadata fetch fails. -/
def wSearchEnvBad : LayoutEnv :=
  ⟨Except.error wMetaFailure, fun _ => Except.error wMetaFailure⟩

/-- A concrete find failure whose domain code is not 401. -/
def wFindFailure : ErrorResponse :=
  ⟨⟨ErrorCodes.API_INVALID_QUERY, "Find criteria are empty", none, some 400, false⟩⟩

/-- A layout whose metadata fetch succeeds but whose find call fails (non-401). -/
def wSearchEnvFindFail : LayoutEnv :=
  ⟨Except.ok [⟨"Name", "normal", "text"⟩], fun _ => Except.error wFindFailure⟩

/--
Four layouts: the second fails its metadata fetch, the fourth fails its
find call with a non-401 domain code, the rest succeed.
-/
def wSearchEnvs : String → LayoutEnv :=
  fun name =>
    if name = "B" then wSearchEnvBad
    else if name = "D" then wSearchEnvFindFail
    else wSearchEnvGood

/-- The concrete search input over the four layouts. -/
def wSearchInput : GlobalSearchDataInput := ⟨"Tokyo", ["A", "B", "C", "D"], none⟩

/-- A concrete layout listing: three real layouts and one folder. -/
def wAggListing : List FMLayoutListEntry :=
  [⟨"L1", false⟩, ⟨"L2", false⟩, ⟨"FolderA", true⟩, ⟨"L3", false⟩]

/-- A concrete script listing: one script and one folder. -/
def wAggScripts : List FMScriptEntry := [⟨"S1", false⟩, ⟨"SFolder", true⟩]

/-- An aggregator environment where only layout `L2`'s metadata fetch fails. -/
def wAggEnv : AggregatorEnv :=
  ⟨Except.ok wAggListing,
    fun n =>
      if n = "L2" then Except.error wMetaFailure
      else Except.ok ⟨[⟨"F", "normal", "text"⟩], [], []⟩,
    Except.ok wAggScripts⟩

-- ============================================================================
-- Helper lemmas
-- ============================================================================

/-- A code-scan over a value list finds nothing when no value carries the code. -/
theorem find_code_eq_none (l : List ErrorInfo) (code : Nat)
    (h : ∀ x ∈ l, x.code ≠ code) :
    l.find? (fun info => info.code == code) = none :=
  List.find?_eq_none.mpr (fun x hx => by simpa using h x hx)

/--
Invariant of the per-field pass of `inferRelationships`: any relationship in
the fold's output is either inherited from the initial list or was added
with a target differing case-insensitively from every initially present
target.
-/
theorem inferRel_fold_dedup (layout : String) (fields : List FMFieldMetaData) :
    ∀ (init : List DetailedInferredRelationship × List InferredForeignKey)
      (r : DetailedInferredRelationship),
      r ∈ (fields.foldl (inferRelStep layout) init).1 →
      r ∈ init.1 ∨ ∀ pr ∈ init.1, jsToLower pr.targetTable ≠ jsToLower r.targetTable := by
  induction fields with
  | nil => intro init r h; exact Or.inl (by simpa using h)
  | cons f fs ih =>
    intro init r h
    rw [List.foldl_cons] at h
    rcases ih (inferRelStep layout init f) r h with hmem | hne
    · cases hfk : inferForeignKeyFromField f with
      | none =>
        simp only [inferRelStep, hfk] at hmem
        exact Or.inl hmem
      | some fk =>
        simp only [inferRelStep, hfk] at hmem
        by_cases hany : init.1.any (fun pr =>
          jsToLower pr.targetTable == jsToLower fk.inferredReferencedTable) = true
        · rw [if_pos hany] at hmem
          exact Or.inl hmem
        · rw [if_neg hany] at hmem
          rcases List.mem_append.mp hmem with h1 | h2
          · exact Or.inl h1
          · right
            have hnoex : ¬ ∃ pr ∈ init.1,
                (jsToLower pr.targetTable == jsToLower fk.inferredReferencedTable) = true := by
              simpa [List.any_eq_true] using hany
            have hr : r.targetTable = fk.inferredReferencedTable := by
              rcases List.mem_singleton.mp h2 with rfl
              rfl
            intro pr hpr hcontra
            exact hnoex ⟨pr, hpr, by rw [hr] at hcontra; simp [hcontra]⟩
    · right
      intro pr hpr
      apply hne
      cases hfk : inferForeignKeyFromField f with
      | none => simpa [inferRelStep, hfk] using hpr
      | some fk =>
        simp only [inferRelStep, hfk]
        by_cases hany : init.1.any (fun pr =>
          jsToLower pr.targetTable == jsToLower fk.inferredReferencedTable) = true
        · rw [if_pos hany]
          exact hpr
        · rw [if_neg hany]
          exact List.mem_append.mpr (Or.inl hpr)

/-- `Except.toOption` on a failure. -/
theorem except_toOption_error {ε α : Type} (e : ε) :
    (Except.error e : Except ε α).toOption = none := rfl

/-- `Except.toOption` on a success. -/
theorem except_toOption_ok {ε α : Type} (a : α) :
    (Except.ok a : Except ε α).toOption = some a := rfl

/-- Splitting a list by whether `f` produces a value preserves its length. -/
theorem length_filterMap_add_filter_isNone {α β : Type} (f : α → Option β) (l : List α) :
    (l.filterMap f).length + (l.filter (fun a => (f a).isNone)).length = l.length := by
  induction l with
  | nil => rfl
  | cons a l ih =>
    cases h : f a with
    | none =>
      simp only [List.filterMap_cons, List.filter_cons, h, Option.isNone_none, if_true]
      simp only [List.length_cons]
      omega
    | some b =>
      simp only [List.filterMap_cons, List.filter_cons, h, Option.isNone_some]
      simp only [List.length_cons, if_false, Bool.false_eq_true, ite_false]
      omega

/--
Characterisation of the per-layout loop of `globalSearchData`: the fold
collects successful per-layout results in order, the names of skipped
layouts in order, and the running record total.
-/
theorem globalSearch_foldl_char (text : String) (opts : SearchOptions)
    (envs : String → LayoutEnv) (names : List String) :
    ∀ acc : List LayoutSearchResult × List String × Nat,
      names.foldl (globalSearchStep text opts envs) acc =
        (acc.1 ++ names.filterMap (fun n => (searchLayout n text opts (envs n)).toOption),
          acc.2.1 ++ names.filter
            (fun n => ((searchLayout n text opts (envs n)).toOption).isNone),
          acc.2.2 + ((names.filterMap
            (fun n => (searchLayout n text opts (envs n)).toOption)).map
              (fun r => r.recordCount)).sum) := by
  induction names with
  | nil => intro acc; simp
  | cons n ns ih =>
    intro acc
    rw [List.foldl_cons, ih]
    cases h : searchLayout n text opts (envs n) with
    | error e =>
      simp [globalSearchStep, h, List.filterMap_cons, List.filter_cons, except_toOption_error]
    | ok r =>
      simp [globalSearchStep, h, List.filterMap_cons, List.filter_cons, except_toOption_ok]
      omega

/-- `globalSearchData` on valid input, written out via the characterisation. -/
theorem globalSearchData_ok (input : GlobalSearchDataInput) (envs : String → LayoutEnv)
    (h1 : jsTrim input.searchText ≠ "") (h2 : input.layouts ≠ []) :
    globalSearchData input envs = Except.ok
      { searchText := input.searchText,
        results := input.layouts.filterMap (fun n =>
          (searchLayout n input.searchText (resolvedSearchOptions input) (envs n)).toOption),
        summary := {
          totalLayouts := input.layouts.length,
          totalRecordsFound := ((input.layouts.filterMap (fun n =>
            (searchLayout n input.searchText (resolvedSearchOptions input)
              (envs n)).toOption)).map (fun r => r.recordCount)).sum,
          searchedLayouts := (input.layouts.filterMap (fun n =>
            (searchLayout n input.searchText (resolvedSearchOptions input)
              (envs n)).toOption)).map (fun r => r.layout),
          skippedLayouts := input.layouts.filter (fun n =>
            ((searchLayout n input.searchText (resolvedSearchOptions input)
              (envs n)).toOption).isNone) } } := by
  unfold globalSearchData
  rw [if_neg h1, if_neg (by simpa [List.isEmpty_iff] using h2)]
  simp only [globalSearch_foldl_char, List.nil_append, Nat.zero_add]

/--
Characterisation of the layouts component of the per-layout loop of
`exportDatabaseMetadata`: one entry per layout whose metadata fetch
succeeded, in order.
-/
theorem export_foldl_layouts (opts : ExportOptions) (env : AggregatorEnv)
    (names : List String) :
    ∀ acc, (names.foldl (exportLayoutStep opts env) acc).1 =
      acc.1 ++ names.filterMap
        (fun n => ((env.layoutMeta n).toOption).map (buildLayoutEntry n)) := by
  induction names with
  | nil => intro acc; simp
  | cons n ns ih =>
    intro acc
    rw [List.foldl_cons, ih]
    cases h : env.layoutMeta n with
    | error e => simp [exportLayoutStep, h, except_toOption_error, List.filterMap_cons]
    | ok md => simp [exportLayoutStep, h, except_toOption_ok, List.filterMap_cons]

/-- The names of the collected layout entries are the successful names. -/
theorem map_name_of_entries (g : String → Except ErrorResponse AggLayoutMeta)
    (names : List String) :
    (names.filterMap (fun n => ((g n).toOption).map (buildLayoutEntry n))).map
      (fun l => l.name) = names.filter (fun n => ((g n).toOption).isSome) := by
  induction names with
  | nil => rfl
  | cons n ns ih =>
    cases h : g n with
    | error e =>
      simp [List.filterMap_cons, List.filter_cons, h, except_toOption_error, ih]
    | ok md =>
      simp [List.filterMap_cons, List.filter_cons, h, except_toOption_ok, ih, buildLayoutEntry]

-- ============================================================================
-- Claim theorems
-- ============================================================================

/--
C1: `resolveError(401, 401)` yields the "no records matched" descriptor
(internal code `API_RECORD_NOT_FOUND` = 3002, not retryable), never the
session-expired descriptor (2001), because a present domain code with a
table entry is resolved before the transport status is consulted.
-/
theorem C1_domain_code_precedence_401 :
    resolveError 401 (some 401) =
      ⟨ErrorCodes.API_RECORD_NOT_FOUND, "No records match the request", false⟩ ∧
    (resolveError 401 (some 401)).code = 3002 ∧
    (resolveError 401 (some 401)).retryable = false ∧
    (resolveError 401 (some 401)).code ≠ ErrorCodes.SESSION_EXPIRED ∧
    ∀ (httpStatus fmCode : Nat) (info : ErrorInfo),
      FM_ERROR_MAP fmCode = some info →
      resolveError httpStatus (some fmCode) = info := by
  refine ⟨by decide, by decide, by decide, by decide, ?_⟩
  intro s c info h
  simp [resolveError, h]

/-- Witness for C1 at a concrete domain code present in the table. -/
theorem C1_domain_code_precedence_401_witness :
    resolveError 404 (some 212) =
      ⟨ErrorCodes.AUTH_INVALID_CREDENTIALS, "Invalid username or password", false⟩ :=
  C1_domain_code_precedence_401.2.2.2.2 404 212 _ (by decide)

/--
C2 counterexample: with an Active session, a call through `withSession`
whose result is a resolved expired-session error returns that error to the
caller but leaves the session state unchanged (still Active, not Absent),
contradicting the claim that every authenticated call with a resolved
expired-session error leaves the state Absent.
-/
theorem C2_expired_session_counterexample :
    hasActiveSession wActiveState = true ∧
    wExpiredResponse.error.code = ErrorCodes.SESSION_EXPIRED ∧
    (withSession wActiveState wExpiredResponse).1 = Sum.inr wExpiredResponse ∧
    (withSession wActiveState wExpiredResponse).2 ≠ none := by decide

/--
C2 amended: a call through `withSession` returns its result unchanged and
never changes the session state, even when that result is an
expired-session error; the state transition to Absent on an expired-session
error happens in `validateSession` (and `logout` clears state
unconditionally when Active).
-/
theorem C2_expired_session_amended :
    (∀ (state : Option SessionState) (r : ErrorResponse),
      hasActiveSession state = true → withSession state r = (Sum.inr r, state)) ∧
    (∀ (state : Option SessionState) (e : ErrorResponse) (age : Option Nat),
      hasActiveSession state = true → e.error.code = ErrorCodes.SESSION_EXPIRED →
      validateSession state (Sum.inl e) age =
        (⟨false, "Session expired or invalid", none⟩, none)) ∧
    (∀ (state : Option SessionState) (resp : ErrorResponse ⊕ Unit),
      hasActiveSession state = true → (logout state resp).stateAfter = none) := by
  refine ⟨?_, ?_, ?_⟩
  · intro st r h
    simp [withSession, h]
  · intro st e age h he
    simp [validateSession, h, he]
  · intro st resp h
    simp [logout, h]

/-- Witness for C2 amended at the concrete Active state and expired error. -/
theorem C2_expired_session_amended_witness :
    withSession wActiveState wExpiredResponse = (Sum.inr wExpiredResponse, wActiveState) ∧
    validateSession wActiveState (Sum.inl wExpiredResponse) (some 10) =
      (⟨false, "Session expired or invalid", none⟩, none) :=
  ⟨C2_expired_session_amended.1 wActiveState wExpiredResponse (by decide),
    C2_expired_session_amended.2.1 wActiveState wExpiredResponse (some 10)
      (by decide) (by decide)⟩

/--
C3 counterexample: for a layout whose only portal is `Orders` and whose
fields contain the number field `Order_ID`, the inferrer produces two
relationships targeting `Order`/`Orders`, not exactly one: the portal
guess is `Orders` while the field guess is `Order`, and the
case-insensitive dedup check does not identify them.
-/
theorem C3_relationship_dedup_counterexample :
    ((inferRelationshipsCore "Invoice" c3Metadata).1.filter
      (fun r => r.targetTable == "Order" || r.targetTable == "Orders")).length = 2 ∧
    ¬ ((inferRelationshipsCore "Invoice" c3Metadata).1.filter
      (fun r => r.targetTable == "Order" || r.targetTable == "Orders")).length = 1 := by
  decide

/--
C3 amended: on the `Orders` + `Order_ID` layout the inferrer produces two
relationships, targeting `Orders` (from the portal) and `Order` (from the
field) — the dedup compares guessed names by exact case-insensitive
equality, without singular/plural normalisation.  The general rule does
hold: a field-derived relationship is only added when no already-collected
relationship (in particular no portal-derived one) targets the same
guessed name case-insensitively.
-/
theorem C3_relationship_dedup_amended :
    ((inferRelationshipsCore "Invoice" c3Metadata).1.map (fun r => r.targetTable) =
      ["Orders", "Order"]) ∧
    (∀ (layout : String) (md : LayoutMetadataShape) (r : DetailedInferredRelationship),
      r ∈ (inferRelationshipsCore layout md).1 →
      r ∉ md.portalMetaData.map (fun p => inferRelationshipFromPortal layout p.1 p.2) →
      ∀ pr ∈ md.portalMetaData.map (fun p => inferRelationshipFromPortal layout p.1 p.2),
        jsToLower pr.targetTable ≠ jsToLower r.targetTable) := by
  constructor
  · decide
  · intro layout md r hr hnot pr hpr
    rcases inferRel_fold_dedup layout md.fieldMetaData
        (md.portalMetaData.map (fun p => inferRelationshipFromPortal layout p.1 p.2), [])
        r (by simpa [inferRelationshipsCore] using hr) with h | h
    · exact absurd h hnot
    · exact h pr hpr

/-- Witness for C3 amended at the concrete `Orders` + `Order_ID` layout. -/
theorem C3_relationship_dedup_amended_witness :
    jsToLower (inferRelationshipFromPortal "Invoice" "Orders" []).targetTable ≠
      jsToLower c3FieldRel.targetTable :=
  C3_relationship_dedup_amended.2 "Invoice" c3Metadata c3FieldRel (by decide) (by decide)
    (inferRelationshipFromPortal "Invoice" "Orders" []) (by decide)

/--
C4: `buildSearchValue` decorates only text-typed fields — `contains` wraps
the text in `*`, `startsWith` appends `*`, `exact` prepends `==` — and
returns the search text unchanged for every non-text field type and every
mode.
-/
theorem C4_buildSearchValue_type_awareness (t : String) :
    buildSearchValue t SearchMode.contains "text" = "*" ++ t ++ "*" ∧
    buildSearchValue t SearchMode.startsWith "text" = t ++ "*" ∧
    buildSearchValue t SearchMode.exact "text" = "==" ++ t ∧
    ∀ (mode : SearchMode) (fieldResultType : String), fieldResultType ≠ "text" →
      buildSearchValue t mode fieldResultType = t := by
  refine ⟨rfl, rfl, rfl, ?_⟩
  intro mode ftype h
  simp [buildSearchValue, h]

/-- Witness for C4 at search text `ABC` with text and number fields. -/
theorem C4_buildSearchValue_type_awareness_witness :
    buildSearchValue "ABC" SearchMode.contains "text" = "*ABC*" ∧
    buildSearchValue "ABC" SearchMode.contains "number" = "ABC" ∧
    buildSearchValue "ABC" SearchMode.exact "number" = "ABC" :=
  ⟨by rw [(C4_buildSearchValue_type_awareness "ABC").1]; decide,
    (C4_buildSearchValue_type_awareness "ABC").2.2.2 SearchMode.contains "number" (by decide),
    (C4_buildSearchValue_type_awareness "ABC").2.2.2 SearchMode.exact "number" (by decide)⟩

/--
C5: `logout` while Absent returns the non-retryable "no session" error
without a remote call; while Active it issues one delete-session call,
treats an expired-session error from it as a successful logout, clears the
state regardless of the remote outcome, and therefore a second consecutive
logout never reaches the remote system.
-/
theorem C5_logout_idempotent :
    (∀ (state : Option SessionState) (resp : ErrorResponse ⊕ Unit),
      hasActiveSession state = false →
      logout state resp =
        ⟨Except.error ⟨⟨ErrorCodes.SESSION_INVALID, "No active session", none, none, false⟩⟩,
          state, false⟩) ∧
    (∀ (state : Option SessionState) (resp : ErrorResponse ⊕ Unit),
      hasActiveSession state = true →
      (logout state resp).stateAfter = none ∧ (logout state resp).remoteCallIssued = true) ∧
    (∀ (state : Option SessionState) (e : ErrorResponse),
      hasActiveSession state = true → e.error.code = ErrorCodes.SESSION_EXPIRED →
      (logout state (Sum.inl e)).result = Except.ok "Session already expired") ∧
    (∀ (state : Option SessionState) (resp resp2 : ErrorResponse ⊕ Unit),
      hasActiveSession state = true →
      (logout ((logout state resp).stateAfter) resp2).remoteCallIssued = false) := by
  refine ⟨?_, ?_, ?_, ?_⟩
  · intro st resp h
    simp [logout, h]
  · intro st resp h
    simp [logout, h]
  · intro st e h he
    simp [logout, h, he]
  · intro st resp resp2 h
    have h2 : (logout st resp).stateAfter = none := by simp [logout, h]
    rw [h2]
    simp [logout, hasActiveSession]

/-- Witness for C5 at Absent and the concrete Active state. -/
theorem C5_logout_idempotent_witness :
    logout (none : Option SessionState) (Sum.inr ()) =
      ⟨Except.error ⟨⟨ErrorCodes.SESSION_INVALID, "No active session", none, none, false⟩⟩,
        none, false⟩ ∧
    (logout wActiveState (Sum.inl wExpiredResponse)).result =
      Except.ok "Session already expired" ∧
    (logout ((logout wActiveState (Sum.inr ())).stateAfter) (Sum.inr ())).remoteCallIssued =
      false :=
  ⟨C5_logout_idempotent.1 none (Sum.inr ()) (by decide),
    C5_logout_idempotent.2.2.1 wActiveState wExpiredResponse (by decide) (by decide),
    C5_logout_idempotent.2.2.2 wActiveState (Sum.inr ()) (Sum.inr ()) (by decide)⟩

/--
C6: over any list of requested layouts, `globalSearchData` records every
layout whose metadata fetch fails as skipped, and every layout whose find
query fails with a domain code other than 401 as skipped, while the rest
are still processed; a per-layout find failure with domain code 401 ("no
records matched") instead yields a searched result with zero records and
is not a skip; and the summary's searched and skipped lists partition the
processed layouts with the total equal to the sum of the per-layout
record counts.
-/
theorem C6_search_partial_failure (input : GlobalSearchDataInput)
    (envs : String → LayoutEnv)
    (h1 : jsTrim input.searchText ≠ "") (h2 : input.layouts ≠ []) :
    ∃ out, globalSearchData input envs = Except.ok out ∧
      out.summary.searchedLayouts.length + out.summary.skippedLayouts.length =
        input.layouts.length ∧
      out.summary.totalRecordsFound = (out.results.map (fun r => r.recordCount)).sum ∧
      out.summary.searchedLayouts = out.results.map (fun r => r.layout) ∧
      (∀ name ∈ input.layouts, ∀ e, (envs name).metaResult = Except.error e →
        name ∈ out.summary.skippedLayouts) ∧
      (∀ name ∈ input.layouts, ∀ (fields : List FMFieldMetaData) (e : ErrorResponse),
        (envs name).metaResult = Except.ok fields →
        (∀ req, (envs name).findResult req = Except.error e) →
        e.error.fmErrorCode ≠ some 401 →
        name ∈ out.summary.skippedLayouts) ∧
      (∀ name ∈ input.layouts, ∀ res,
        searchLayout name input.searchText (resolvedSearchOptions input) (envs name) =
          Except.ok res → res ∈ out.results) ∧
      (∀ (name : String) (fields : List FMFieldMetaData) (e : ErrorResponse),
        (envs name).metaResult = Except.ok fields →
        (fields.filter (fun f =>
          isSearchableField f (resolvedSearchOptions input).includeCalculations)).take
            (resolvedSearchOptions input).maxFieldsPerLayout ≠ [] →
        (∀ req, (envs name).findResult req = Except.error e) →
        e.error.fmErrorCode = some 401 →
        ∃ res,
          searchLayout name input.searchText (resolvedSearchOptions input) (envs name) =
            Except.ok res ∧ res.recordCount = 0 ∧ res.layout = name ∧
          name ∉ out.summary.skippedLayouts) := by
  refine ⟨_, globalSearchData_ok input envs h1 h2, ?_, rfl, rfl, ?_, ?_, ?_, ?_⟩
  · simpa using length_filterMap_add_filter_isNone
      (fun n => (searchLayout n input.searchText (resolvedSearchOptions input)
        (envs n)).toOption) input.layouts
  · intro name hname e he
    refine List.mem_filter.mpr ⟨hname, ?_⟩
    simp [searchLayout, he, except_toOption_error]
  · intro name hname fields e hmeta hfind hne
    refine List.mem_filter.mpr ⟨hname, ?_⟩
    by_cases hempty : ((fields.filter (fun f =>
        isSearchableField f (resolvedSearchOptions input).includeCalculations)).take
          (resolvedSearchOptions input).maxFieldsPerLayout).isEmpty = true
    · simp [searchLayout, hmeta, hempty, except_toOption_error]
    · have hempty' : ((fields.filter (fun f =>
          isSearchableField f (resolvedSearchOptions input).includeCalculations)).take
            (resolvedSearchOptions input).maxFieldsPerLayout).isEmpty = false := by
        simpa using hempty
      simp [searchLayout, hmeta, hempty', hfind, hne, except_toOption_error]
  · intro name hname res hres
    exact List.mem_filterMap.mpr ⟨name, hname, by rw [hres]; rfl⟩
  · intro name fields e hmeta hne hfind hfm
    have hempty : ((fields.filter (fun f =>
        isSearchableField f (resolvedSearchOptions input).includeCalculations)).take
          (resolvedSearchOptions input).maxFieldsPerLayout).isEmpty = false := by
      simpa [List.isEmpty_iff] using hne
    have hsl : searchLayout name input.searchText (resolvedSearchOptions input) (envs name) =
        Except.ok ⟨name, 0, [],
          ((fields.filter (fun f =>
            isSearchableField f (resolvedSearchOptions input).includeCalculations)).take
              (resolvedSearchOptions input).maxFieldsPerLayout).map (fun f => f.name),
          none⟩ := by
      simp [searchLayout, hmeta, hempty, hfind, hfm]
    refine ⟨_, hsl, rfl, rfl, ?_⟩
    intro hcontra
    have hp := (List.mem_filter.mp hcontra).2
    rw [hsl] at hp
    simp [except_toOption_ok] at hp

/--
Witness for C6 at four concrete layouts: the second fails its metadata
fetch, the fourth fails its find query with domain code 400, and both are
recorded as skipped.
-/
theorem C6_search_partial_failure_witness :
    ∃ out, globalSearchData wSearchInput wSearchEnvs = Except.ok out ∧
      out.summary.searchedLayouts.length + out.summary.skippedLayouts.length =
        wSearchInput.layouts.length ∧
      out.summary.totalRecordsFound = (out.results.map (fun r => r.recordCount)).sum ∧
      "B" ∈ out.summary.skippedLayouts ∧
      "D" ∈ out.summary.skippedLayouts := by
  obtain ⟨out, ha, hb, hc, -, hmetaskip, hfindskip, -, -⟩ :=
    C6_search_partial_failure wSearchInput wSearchEnvs (by decide) (by decide)
  refine ⟨out, ha, hb, hc, ?_, ?_⟩
  · exact hmetaskip "B" (by decide) wMetaFailure rfl
  · exact hfindskip "D" (by decide) [⟨"Name", "normal", "text"⟩] wFindFailure rfl
      (fun _ => rfl) (by decide)

/--
C7: in `exportDatabaseMetadata`, a failed layout listing (with layouts
requested) or a failed script listing (with scripts requested) fails the
whole call with that error, while an individual layout's metadata failure
only drops that layout: the call still succeeds and the collected layout
names are exactly the non-folder layouts whose metadata fetch succeeded.
-/
theorem C7_aggregation_partial_tolerance (input : ExportDatabaseMetadataInput)
    (env : AggregatorEnv) :
    ((resolveExportOptions input).includeLayouts = true →
      ∀ e, env.layoutsResult = Except.error e →
        exportDatabaseMetadata input env = Except.error e) ∧
    ((resolveExportOptions input).includeLayouts = true →
      (resolveExportOptions input).includeScripts = true →
      ∀ (listing : List FMLayoutListEntry) (e : ErrorResponse),
        env.layoutsResult = Except.ok listing →
        env.scriptsResult = Except.error e →
        exportDatabaseMetadata input env = Except.error e) ∧
    (∀ (listing : List FMLayoutListEntry) (scriptList : List FMScriptEntry),
      (resolveExportOptions input).includeLayouts = true →
      env.layoutsResult = Except.ok listing →
      ((resolveExportOptions input).includeScripts = true →
        env.scriptsResult = Except.ok scriptList) →
      ∃ out, exportDatabaseMetadata input env = Except.ok out ∧
        out.layouts.map (fun l => l.name) =
          ((listing.filter (fun l => !l.isFolder)).map (fun l => l.name)).filter
            (fun n => ((env.layoutMeta n).toOption).isSome)) := by
  refine ⟨?_, ?_, ?_⟩
  · intro hil e he
    simp [exportDatabaseMetadata, hil, he]
  · intro hil his listing e hok herr
    simp [exportDatabaseMetadata, hil, his, hok, herr]
  · intro listing scriptList hil hok hs
    by_cases his : (resolveExportOptions input).includeScripts = true
    · refine ⟨⟨(((listing.filter (fun l => !l.isFolder)).map (fun l => l.name)).foldl
          (exportLayoutStep (resolveExportOptions input) env) ([], [], [])).1,
        (scriptList.filter (fun s => !s.isFolder)).map (fun s => ScriptMetadata.mk s.name true),
        (((listing.filter (fun l => !l.isFolder)).map (fun l => l.name)).foldl
          (exportLayoutStep (resolveExportOptions input) env) ([], [], [])).2.2,
        (((listing.filter (fun l => !l.isFolder)).map (fun l => l.name)).foldl
          (exportLayoutStep (resolveExportOptions input) env) ([], [], [])).2.1,
        DATA_API_LIMITATIONS⟩, ?_, ?_⟩
      · simp [exportDatabaseMetadata, hil, hok, his, hs his]
      · rw [export_foldl_layouts]
        simpa using map_name_of_entries env.layoutMeta
          ((listing.filter (fun l => !l.isFolder)).map (fun l => l.name))
    · have his' : (resolveExportOptions input).includeScripts = false := by
        simpa using his
      refine ⟨⟨(((listing.filter (fun l => !l.isFolder)).map (fun l => l.name)).foldl
          (exportLayoutStep (resolveExportOptions input) env) ([], [], [])).1,
        [],
        (((listing.filter (fun l => !l.isFolder)).map (fun l => l.name)).foldl
          (exportLayoutStep (resolveExportOptions input) env) ([], [], [])).2.2,
        (((listing.filter (fun l => !l.isFolder)).map (fun l => l.name)).foldl
          (exportLayoutStep (resolveExportOptions input) env) ([], [], [])).2.1,
        DATA_API_LIMITATIONS⟩, ?_, ?_⟩
      · simp [exportDatabaseMetadata, hil, hok, his']
      · rw [export_foldl_layouts]
        simpa using map_name_of_entries env.layoutMeta
          ((listing.filter (fun l => !l.isFolder)).map (fun l => l.name))

/-- Witness for C7 at a concrete environment where only `L2` fails. -/
theorem C7_aggregation_partial_tolerance_witness :
    ∃ out, exportDatabaseMetadata ⟨none⟩ wAggEnv = Except.ok out ∧
      out.layouts.map (fun l => l.name) = ["L1", "L3"] := by
  obtain ⟨out, h1, h2⟩ := (C7_aggregation_partial_tolerance ⟨none⟩ wAggEnv).2.2
    wAggListing wAggScripts rfl rfl (fun _ => rfl)
  refine ⟨out, h1, ?_⟩
  rw [h2]
  decide

/--
C8: foreign-key inference is deterministic on (name, declared type):
`Customer_ID` as number gives guess `Customer` with high confidence, as
text the same guess with medium confidence; `FirstName` matches no pattern
for any type; and any type other than text/number gives no foreign key.
-/
theorem C8_foreign_key_determinism :
    inferForeignKeyFromField ⟨"Customer_ID", "normal", "number"⟩ =
      some ⟨"Customer_ID", "Customer", ConfidenceLevel.high,
        "フィールド名「Customer_ID」が外部キーパターンに一致"⟩ ∧
    inferForeignKeyFromField ⟨"Customer_ID", "normal", "text"⟩ =
      some ⟨"Customer_ID", "Customer", ConfidenceLevel.medium,
        "フィールド名「Customer_ID」が外部キーパターンに一致"⟩ ∧
    (∀ result : String, inferForeignKeyFromField ⟨"FirstName", "normal", result⟩ = none) ∧
    (∀ field : FMFieldMetaData, field.result ≠ "number" → field.result ≠ "text" →
      inferForeignKeyFromField field = none) := by
  refine ⟨by decide, by decide, ?_, ?_⟩
  · intro result
    by_cases h1 : result = "number"
    · subst h1; decide
    · by_cases h2 : result = "text"
      · subst h2; decide
      · simp [inferForeignKeyFromField, h1, h2]
  · intro field h1 h2
    simp [inferForeignKeyFromField, h1, h2]

/-- Witness for C8 at concrete non-matching and non-text/number fields. -/
theorem C8_foreign_key_determinism_witness :
    inferForeignKeyFromField ⟨"FirstName", "normal", "date"⟩ = none ∧
    inferForeignKeyFromField ⟨"Customer_ID", "normal", "timestamp"⟩ = none :=
  ⟨C8_foreign_key_determinism.2.2.1 "date",
    C8_foreign_key_determinism.2.2.2 ⟨"Customer_ID", "normal", "timestamp"⟩
      (by decide) (by decide)⟩

/--
C9: the resolver falls back along domain table, transport table, unknown:
`resolveError 999 none` is the unknown non-retryable descriptor,
`resolveError 429 none` the retryable rate-limited descriptor,
`resolveError 400 (some 401)` the domain "no records matched" descriptor;
and `isRetryableError` reports any internal code absent from both tables
as non-retryable.
-/
theorem C9_resolver_fallback_chain :
    resolveError 999 none = ⟨ErrorCodes.INTERNAL_UNKNOWN, "Unknown error", false⟩ ∧
    resolveError 429 none =
      ⟨ErrorCodes.API_RATE_LIMITED, "Rate limited - too many requests", true⟩ ∧
    resolveError 400 (some 401) =
      ⟨ErrorCodes.API_RECORD_NOT_FOUND, "No records match the request", false⟩ ∧
    ∀ code : Nat,
      code ∉ HTTP_ERROR_ENTRIES.map (fun e => e.2.code) ++
        FM_ERROR_ENTRIES.map (fun e => e.2.code) →
      isRetryableError code = false := by
  refine ⟨by decide, by decide, by decide, ?_⟩
  intro code hcode
  have hh : (HTTP_ERROR_ENTRIES.map Prod.snd).find? (fun info => info.code == code) = none := by
    apply find_code_eq_none
    intro x hx hxc
    rcases List.mem_map.mp hx with ⟨e, he, rfl⟩
    exact hcode (List.mem_append.mpr (Or.inl (List.mem_map.mpr ⟨e, he, hxc⟩)))
  have hf : (FM_ERROR_ENTRIES.map Prod.snd).find? (fun info => info.code == code) = none := by
    apply find_code_eq_none
    intro x hx hxc
    rcases List.mem_map.mp hx with ⟨e, he, rfl⟩
    exact hcode (List.mem_append.mpr (Or.inr (List.mem_map.mpr ⟨e, he, hxc⟩)))
  simp [isRetryableError, hh, hf]

/-- Witness for C9 at a code (9999) absent from both tables. -/
theorem C9_resolver_fallback_chain_witness :
    isRetryableError 9999 = false :=
  C9_resolver_fallback_chain.2.2.2 9999 (by decide)

/--
C10: `isRetryableError 5001` is true because the transport table's 500
entry carries internal code `INTERNAL_UNKNOWN` (5001) with retryable true
and the transport table is scanned first — even though `resolveError`'s
unknown fallback returns the same code 5001 with retryable false.
-/
theorem C10_isRetryable_5001 :
    isRetryableError ErrorCodes.INTERNAL_UNKNOWN = true ∧
    HTTP_ERROR_MAP 500 =
      some ⟨ErrorCodes.INTERNAL_UNKNOWN, "FileMaker server error", true⟩ ∧
    resolveError 999 none = ⟨ErrorCodes.INTERNAL_UNKNOWN, "Unknown error", false⟩ ∧
    (resolveError 999 none).retryable = false := by
  decide

end FMMCP
